import Mathlib

/-!
Verification development for PyDQED, a Python wrapper around the DQED
bounded constrained nonlinear least-squares code.

The repository ships two Python files under src: test.py (the unit tests,
defining two ProblemDefinition subclasses and four test cases) and setup.py
(build configuration). The wrapper module pydqed.pyx that implements the
DQED driver class is not among the available sources, so the driver
(its configuration method, bounds encoding, solve entry point and status
decoding) is modelled from the specification, with the repository tests in
src/test.py as evidence of its observable behaviour. The external Fortran
kernel is opaque in the specification and is represented here as an
arbitrary function parameter.

All numeric values are modelled as rationals: every concrete number
appearing in the tests (bounds, tolerances) is exactly representable.
-/

/-- Per-variable (or per-constraint) bound type code fed to the kernel,
modelled from the spec, section 4.2: free, lower-bounded, upper-bounded or
two-sided. -/
inductive BoundType where
  | free : BoundType
  | lowerOnly : BoundType
  | upperOnly : BoundType
  | twoSided : BoundType
deriving DecidableEq

/-- Configuration errors that the driver raises at configuration time,
modelled from the spec, section 7: bad dimensions, malformed bounds
(wrong length or lower above upper), non-positive tolerances or
iteration cap. -/
inductive DQEDError where
  | boundsLength : DQEDError
  | boundsOrder : DQEDError
  | badDims : DQEDError
  | badTol : DQEDError
  | badMaxIter : DQEDError
deriving DecidableEq

/-- EvaluationResult, modelled from the spec, section 3: residuals f,
Jacobian J, constraint values fcons and constraint Jacobian Jcons produced
by ProblemDefinition.evaluate at a trial point. -/
structure EvalResult where
  f : List ℚ
  J : List (List ℚ)
  fcons : List ℚ
  Jcons : List (List ℚ)
deriving DecidableEq

/-- The DQED driver instance, modelled from the spec, sections 3 and 6.
It mirrors a Python object: the dimension attributes Nvars, Ncons, Neq are
Option-valued because a fresh instance (whose subclass constructor never
set them, as in Optimization2 in src/test.py) has no such attributes; the
configuration method fills them in.  ind, bl, bu hold the encoded
bound-type codes and numeric bound values passed to the kernel. -/
structure DQED where
  Nvars : Option Nat
  Ncons : Option Nat
  Neq : Option Nat
  ind : List BoundType
  bl : List ℚ
  bu : List ℚ
  tolf : ℚ
  told : ℚ
  tolx : ℚ
  maxIter : Nat
deriving DecidableEq

/-- A fresh driver instance before configuration: no dimension attributes
set, empty bound encoding.  This mirrors the Optimization2 subclass in
src/test.py, whose constructor stores only its fitting data and never sets
Nvars, Ncons or Neq. -/
def freshDQED : DQED :=
  { Nvars := none, Ncons := none, Neq := none, ind := [], bl := [], bu := [],
    tolf := 0, told := 0, tolx := 0, maxIter := 0 }

/-- Bound-type encoding of one user-facing bound pair, modelled from the
spec, section 4.2: both sides absent means free, one side present means
one-sided, both present means two-sided. -/
def encodeType : Option ℚ × Option ℚ → BoundType
  | (none, none) => BoundType.free
  | (some _, none) => BoundType.lowerOnly
  | (none, some _) => BoundType.upperOnly
  | (some _, some _) => BoundType.twoSided

/-- Numeric lower bound recorded for one pair, modelled from the spec,
section 4.2: the lower value when present, else the sentinel 0. -/
def encodeLower : Option ℚ × Option ℚ → ℚ
  | (some l, _) => l
  | (none, _) => 0

/-- Numeric upper bound recorded for one pair, modelled from the spec,
section 4.2: the upper value when present, else the sentinel 0. -/
def encodeUpper : Option ℚ × Option ℚ → ℚ
  | (_, some u) => u
  | (_, none) => 0

/-- Validity of one bound pair, modelled from the spec, section 4.2: a
two-sided pair must satisfy lower at most upper; any other shape is
always valid. -/
def boundPairOk : Option ℚ × Option ℚ → Bool
  | (some l, some u) => decide (l ≤ u)
  | _ => true

/-- Modelled from the spec: the validation and encoding core of the
initialize method of the DQED driver (implemented in pydqed.pyx, which is
not among the available sources), applied to the explicit bound pair list.
Per sections 4.2, 6 and 7 it validates the configuration and encodes the
user-facing bounds into the kernel bound-type codes before any solving
begins, raising a configuration error on malformed input.  The accepted
bounds length is
Nvars + Ncons: the repository test src/test.py test2 passes a bounds
sequence of length 5 for Nvars = 4, Ncons = 1, whose trailing entry bounds
the constraint value, and asserts a successful solve; with Ncons = 0 this
coincides with the spec text of section 4.2. -/
def configureBounds (self : DQED) (nv nc ne : Nat)
    (pairs : List (Option ℚ × Option ℚ))
    (tolf told tolx : ℚ) (maxIter : Nat) : Except DQEDError DQED :=
  if pairs.length ≠ nv + nc then Except.error DQEDError.boundsLength
  else if ¬ (pairs.all boundPairOk) then Except.error DQEDError.boundsOrder
  else if nv = 0 ∨ ne = 0 then Except.error DQEDError.badDims
  else if tolf ≤ 0 ∨ told ≤ 0 ∨ tolx ≤ 0 then Except.error DQEDError.badTol
  else if maxIter = 0 then Except.error DQEDError.badMaxIter
  else Except.ok { self with
    Nvars := some nv, Ncons := some nc, Neq := some ne,
    ind := pairs.map encodeType,
    bl := pairs.map encodeLower,
    bu := pairs.map encodeUpper,
    tolf := tolf, told := told, tolx := tolx, maxIter := maxIter }

/-- Modelled from the spec: the initialize method of the DQED driver
(implemented in pydqed.pyx, which is not among the available sources).
An absent bounds argument is replaced by an all-free pair list, then the
configuration is validated and encoded by configureBounds. -/
def DQED.configure (self : DQED) (nv nc ne : Nat)
    (bounds : Option (List (Option ℚ × Option ℚ)))
    (tolf told tolx : ℚ) (maxIter : Nat) : Except DQEDError DQED :=
  configureBounds self nv nc ne
    (bounds.getD (List.replicate (nv + nc) (none, none))) tolf told tolx maxIter

/-- Driver classification of the kernel status codes, modelled from the
spec, section 4.3 status taxonomy table. -/
inductive StatusClass where
  | converged : StatusClass
  | degenerateConverged : StatusClass
  | notConverged : StatusClass
  | invalidInput : StatusClass
deriving DecidableEq

/-- Classification function from raw kernel status code to outcome class,
modelled from the spec, section 4.3: codes 2, 4, 6, 7 converged; 3
degenerate-converged; 5, 8 not-converged; 1, 9 invalid-input (fatal). -/
def classifyStatus (igo : Int) : StatusClass :=
  if igo = 2 ∨ igo = 4 ∨ igo = 6 ∨ igo = 7 then StatusClass.converged
  else if igo = 3 then StatusClass.degenerateConverged
  else if igo = 5 ∨ igo = 8 then StatusClass.notConverged
  else StatusClass.invalidInput

/-- Modelled from the spec: the solve entry point of the DQED driver
(implemented in pydqed.pyx, which is not among the available sources).
Per sections 4.3 and 6 the driver hands the configured problem (dimensions,
encoded bounds, tolerances, iteration cap) and the evaluation callback of
the ProblemDefinition to the opaque external kernel, and returns the final
parameter vector together with the raw kernel status code, unmodified and
without retrying.  The kernel is a parameter: any function from the
configured state, the callback and the initial guess to a final vector and
a status code. -/
def DQED.solve (self : DQED)
    (evalFn : DQED → List ℚ → EvalResult)
    (kernel : DQED → (List ℚ → EvalResult) → List ℚ → List ℚ × Int)
    (x0 : List ℚ) : List ℚ × Int :=
  let r := kernel self (evalFn self) x0
  (r.1, r.2)

/-- One whole driver interaction, modelled from the spec, section 2
control flow: configure once, then solve; a configuration error is raised
before any solving begins and propagates to the caller. -/
def runSolve (self : DQED) (nv nc ne : Nat)
    (bounds : Option (List (Option ℚ × Option ℚ)))
    (tolf told tolx : ℚ) (maxIter : Nat)
    (evalFn : DQED → List ℚ → EvalResult)
    (kernel : DQED → (List ℚ → EvalResult) → List ℚ → List ℚ × Int)
    (x0 : List ℚ) : Except DQEDError (List ℚ × Int) :=
  match DQED.configure self nv nc ne bounds tolf told tolx maxIter with
  | Except.error e => Except.error e
  | Except.ok s => Except.ok (DQED.solve s evalFn kernel x0)

/-- Whether an Except value is a success. -/
def exceptOk {ε α : Type} : Except ε α → Bool
  | Except.ok _ => true
  | Except.error _ => false

/-- The bounds sequence passed by src/test.py test2: four variable bounds
followed by one constraint bound, the pair (0.05, None) expressing the
linear constraint value being at least 0.05. -/
def bounds2 : List (Option ℚ × Option ℚ) :=
  [(some 0, none), (some (-25), some 0), (some 0, none), (some (-25), some 0),
   (some (mkRat 1 20), none)]

/-- The configured driver state produced by the test2 configuration call:
Nvars = 4, Ncons = 1, Neq = 5, tolerances 1e-5, iteration cap 100. -/
def state2 : DQED :=
  { Nvars := some 4, Ncons := some 1, Neq := some 5,
    ind := [BoundType.lowerOnly, BoundType.twoSided, BoundType.lowerOnly,
            BoundType.twoSided, BoundType.lowerOnly],
    bl := [0, -25, 0, -25, mkRat 1 20],
    bu := [0, 0, 0, 0, 0],
    tolf := mkRat 1 100000, told := mkRat 1 100000, tolx := mkRat 1 100000,
    maxIter := 100 }

/-- A trivial concrete evaluation callback, used only to instantiate
universally quantified statements at a concrete input. -/
def ev0 : DQED → List ℚ → EvalResult := fun _ _ => ⟨[], [], [], []⟩

/-- A trivial concrete kernel, used only to instantiate universally
quantified statements at a concrete input: returns the initial guess with
status 2. -/
def kern0 : DQED → (List ℚ → EvalResult) → List ℚ → List ℚ × Int :=
  fun _ _ x0 => (x0, 2)

/-- C1, counterexample: the claim states that every bounds sequence whose
length differs from Nvars makes the configuration call raise a
configuration error.  The repository test src/test.py test2 passes a
bounds sequence of length 5 with Nvars = 4 (and Ncons = 1) and asserts a
successful solve; accordingly the modelled driver accepts it without
error, refuting the claim as stated. -/
theorem claim1_counterexample :
    bounds2.length ≠ 4
    ∧ exceptOk (DQED.configure freshDQED 4 1 5 (some bounds2)
        (mkRat 1 100000) (mkRat 1 100000) (mkRat 1 100000) 100) = true := by
  exact ⟨by decide, rfl⟩

/-- C1, amended: for every bounds sequence whose length is not equal to
Nvars + Ncons, the configuration call raises a configuration error before
any solving begins, and the evaluate callback is never invoked for that
solve: the whole driver interaction yields the same configuration error
for every evaluate callback and every kernel whatsoever. -/
theorem claim1_amended (self : DQED) (nv nc ne : Nat)
    (pairs : List (Option ℚ × Option ℚ)) (tf td tx : ℚ) (mi : Nat)
    (h : pairs.length ≠ nv + nc) :
    DQED.configure self nv nc ne (some pairs) tf td tx mi
      = Except.error DQEDError.boundsLength
    ∧ ∀ evalFn kernel x0,
        runSolve self nv nc ne (some pairs) tf td tx mi evalFn kernel x0
          = Except.error DQEDError.boundsLength := by
  have hc : DQED.configure self nv nc ne (some pairs) tf td tx mi
      = Except.error DQEDError.boundsLength := by
    unfold DQED.configure configureBounds
    simp [h]
  refine ⟨hc, fun evalFn kernel x0 => ?_⟩
  unfold runSolve
  rw [hc]

/-- C1, amended, witness: a concrete instance with an empty bounds
sequence for Nvars = 1, Ncons = 0. -/
theorem claim1_amended_witness :
    DQED.configure freshDQED 1 0 1 (some []) 1 1 1 10
      = Except.error DQEDError.boundsLength
    ∧ runSolve freshDQED 1 0 1 (some []) 1 1 1 10 ev0 kern0 [1]
      = Except.error DQEDError.boundsLength := by
  have h := claim1_amended freshDQED 1 0 1 [] 1 1 1 10 (by decide)
  exact ⟨h.1, h.2 ev0 kern0 [1]⟩

/-- C6: for every two-sided bound pair with lower above upper supplied in
the bounds sequence, the configuration call raises a configuration error,
before any solving begins: the whole driver interaction fails for every
evaluate callback and every kernel whatsoever. -/
theorem claim6_two_sided_misorder_errors (self : DQED) (nv nc ne : Nat)
    (pairs : List (Option ℚ × Option ℚ)) (tf td tx : ℚ) (mi : Nat)
    (l u : ℚ) (hmem : (some l, some u) ∈ pairs) (hlu : u < l) :
    exceptOk (DQED.configure self nv nc ne (some pairs) tf td tx mi) = false
    ∧ ∀ evalFn kernel x0,
        exceptOk (runSolve self nv nc ne (some pairs) tf td tx mi
          evalFn kernel x0) = false := by
  have hbad : pairs.all boundPairOk = false := by
    cases hall : pairs.all boundPairOk with
    | false => rfl
    | true =>
      have h2 := List.all_eq_true.mp hall _ hmem
      rw [boundPairOk] at h2
      exact absurd (of_decide_eq_true h2) (not_le.mpr hlu)
  have hconf :
      exceptOk (DQED.configure self nv nc ne (some pairs) tf td tx mi) = false := by
    unfold DQED.configure configureBounds
    split
    · rfl
    · rw [if_pos (by simp [hbad])]
      rfl
  refine ⟨hconf, fun evalFn kernel x0 => ?_⟩
  unfold runSolve
  cases hc : DQED.configure self nv nc ne (some pairs) tf td tx mi with
  | error e => rfl
  | ok s =>
    rw [hc] at hconf
    simp [exceptOk] at hconf

/-- C6, witness: a single two-sided pair with lower 1 above upper 0. -/
theorem claim6_witness :
    exceptOk (DQED.configure freshDQED 1 0 1 (some [(some 1, some 0)])
      1 1 1 10) = false
    ∧ exceptOk (runSolve freshDQED 1 0 1 (some [(some 1, some 0)])
      1 1 1 10 ev0 kern0 [1]) = false := by
  have h := claim6_two_sided_misorder_errors freshDQED 1 0 1
    [(some 1, some 0)] 1 1 1 10 1 0 (by simp) (by norm_num)
  exact ⟨h.1, h.2 ev0 kern0 [1]⟩

/-- C8: the solve entry point always returns the pair of final parameter
vector and raw kernel status code exactly as produced by the kernel, with
no retry and no rewriting, so the caller can apply its own success set;
the driver classification maps each of the codes 2, 4, 6 and 7 to the
converged class. -/
theorem claim8_solve_preserves_kernel_result (s : DQED)
    (evalFn : DQED → List ℚ → EvalResult)
    (kernel : DQED → (List ℚ → EvalResult) → List ℚ → List ℚ × Int)
    (x0 : List ℚ) :
    DQED.solve s evalFn kernel x0 = kernel s (evalFn s) x0
    ∧ classifyStatus 2 = StatusClass.converged
    ∧ classifyStatus 4 = StatusClass.converged
    ∧ classifyStatus 6 = StatusClass.converged
    ∧ classifyStatus 7 = StatusClass.converged := by
  exact ⟨rfl, by decide, by decide, by decide, by decide⟩

/-- C7: when the bounds argument is entirely absent, every entry is
encoded as free, and solve proceeds as an unconstrained minimization,
handing the all-free configured state and the evaluation callback to the
kernel unchanged. -/
theorem claim7_absent_bounds_all_free (self : DQED) (nv nc ne : Nat)
    (tf td tx : ℚ) (mi : Nat)
    (hnv : nv ≠ 0) (hne : ne ≠ 0)
    (htf : 0 < tf) (htd : 0 < td) (htx : 0 < tx) (hmi : mi ≠ 0) :
    ∃ s, DQED.configure self nv nc ne none tf td tx mi = Except.ok s
      ∧ s.ind = List.replicate (nv + nc) BoundType.free
      ∧ ∀ evalFn kernel x0,
          DQED.solve s evalFn kernel x0 = kernel s (evalFn s) x0 := by
  have hall : (List.replicate (nv + nc)
      ((none : Option ℚ), (none : Option ℚ))).all boundPairOk = true := by
    apply List.all_eq_true.mpr
    intro p hp
    rw [List.eq_of_mem_replicate hp]
    rfl
  refine ⟨{ self with
            Nvars := some nv, Ncons := some nc, Neq := some ne,
            ind := (List.replicate (nv + nc)
              ((none : Option ℚ), (none : Option ℚ))).map encodeType,
            bl := (List.replicate (nv + nc)
              ((none : Option ℚ), (none : Option ℚ))).map encodeLower,
            bu := (List.replicate (nv + nc)
              ((none : Option ℚ), (none : Option ℚ))).map encodeUpper,
            tolf := tf, told := td, tolx := tx, maxIter := mi },
    ?_, ?_, fun _ _ _ => rfl⟩
  · unfold DQED.configure configureBounds
    simp only [Option.getD_none, List.length_replicate]
    rw [if_neg (by simp), if_neg (by simp [hall]),
      if_neg (by simp [hnv, hne]),
      if_neg (by push_neg; exact ⟨htf, htd, htx⟩), if_neg hmi]
  · show (List.replicate (nv + nc)
        ((none : Option ℚ), (none : Option ℚ))).map encodeType
      = List.replicate (nv + nc) BoundType.free
    rw [List.map_replicate]
    rfl

/-- C7, witness: the configuration of src/test.py test1a, except that the
bounds argument given there is None, here the absent option, with
Nvars = 1, Ncons = 0, Neq = 1, tolerances 1e-16, 1e-8, 1e-8, cap 100. -/
theorem claim7_witness :
    (0 : ℚ) < mkRat 1 100000000
    ∧ ∃ s, DQED.configure freshDQED 1 0 1 none
        (mkRat 1 10000000000000000) (mkRat 1 100000000) (mkRat 1 100000000)
        100 = Except.ok s
      ∧ s.ind = List.replicate (1 + 0) BoundType.free
      ∧ ∀ evalFn kernel x0,
          DQED.solve s evalFn kernel x0 = kernel s (evalFn s) x0 := by
  refine ⟨by norm_num [mkRat], ?_⟩
  exact claim7_absent_bounds_all_free freshDQED 1 0 1
    (mkRat 1 10000000000000000) (mkRat 1 100000000) (mkRat 1 100000000) 100
    (by decide) (by decide) (by norm_num [mkRat]) (by norm_num [mkRat])
    (by norm_num [mkRat]) (by decide)

/-- C9: the configuration call accepts a bounds sequence of length
Nvars + Ncons; the encoded bound types and values follow the pair list
elementwise, so the trailing Ncons pairs become the bounds on the
constraint function values; and solve hands the configured state holding
this encoding, together with the evaluation callback, to the kernel
unchanged. -/
theorem claim9_constraint_bounds_encoded (self : DQED) (nv nc ne : Nat)
    (pairs : List (Option ℚ × Option ℚ)) (tf td tx : ℚ) (mi : Nat) (s : DQED)
    (h : DQED.configure self nv nc ne (some pairs) tf td tx mi
      = Except.ok s) :
    pairs.length = nv + nc
    ∧ s.ind = pairs.map encodeType
    ∧ s.bl = pairs.map encodeLower
    ∧ s.bu = pairs.map encodeUpper
    ∧ List.drop nv s.ind = (List.drop nv pairs).map encodeType
    ∧ List.drop nv s.bl = (List.drop nv pairs).map encodeLower
    ∧ ∀ evalFn kernel x0,
        DQED.solve s evalFn kernel x0 = kernel s (evalFn s) x0 := by
  unfold DQED.configure configureBounds at h
  simp only [Option.getD_some] at h
  split at h
  · simp at h
  next hlen =>
    split at h
    · simp at h
    · split at h
      · simp at h
      · split at h
        · simp at h
        · split at h
          · simp at h
          · injection h with h2
            subst h2
            refine ⟨not_not.mp hlen, rfl, rfl, rfl, ?_, ?_, fun _ _ _ => rfl⟩
            · show List.drop nv (pairs.map encodeType)
                = (List.drop nv pairs).map encodeType
              rw [List.map_drop]
            · show List.drop nv (pairs.map encodeLower)
                = (List.drop nv pairs).map encodeLower
              rw [List.map_drop]

/-- C9, witness: the configuration of src/test.py test2, Nvars = 4,
Ncons = 1, Neq = 5, bounds of length 5 whose last pair (0.05, None) bounds
the constraint value from below; the resulting state records bound type
lower-only and lower value 0.05 at position 4. -/
theorem claim9_witness :
    bounds2.length = 4 + 1
    ∧ state2.ind = bounds2.map encodeType
    ∧ state2.bl = bounds2.map encodeLower
    ∧ state2.bu = bounds2.map encodeUpper
    ∧ List.drop 4 state2.ind = (List.drop 4 bounds2).map encodeType
    ∧ List.drop 4 state2.bl = (List.drop 4 bounds2).map encodeLower
    ∧ DQED.solve state2 ev0 kern0 [0, 0, 0, 0]
        = kern0 state2 (ev0 state2) [0, 0, 0, 0]
    ∧ List.drop 4 state2.ind = [BoundType.lowerOnly]
    ∧ List.drop 4 state2.bl = [mkRat 1 20] := by
  have h := claim9_constraint_bounds_encoded freshDQED 4 1 5 bounds2
    (mkRat 1 100000) (mkRat 1 100000) (mkRat 1 100000) 100 state2 rfl
  exact ⟨h.1, h.2.1, h.2.2.1, h.2.2.2.1, h.2.2.2.2.1, h.2.2.2.2.2.1,
    h.2.2.2.2.2.2 ev0 kern0 [0, 0, 0, 0], rfl, rfl⟩

/-- C10: after a successful configuration call with dimensions nv, nc, ne
on any driver instance, the instance attributes Nvars, Ncons and Neq hold
exactly those values, whatever the instance held before (in particular a
fresh instance whose subclass constructor never set them), and solve hands
that same state to the kernel alongside the evaluation callback, so every
evaluation the kernel requests reads these attribute values. -/
theorem claim10_dimensions_set_by_configuration (self : DQED)
    (nv nc ne : Nat) (bounds : Option (List (Option ℚ × Option ℚ)))
    (tf td tx : ℚ) (mi : Nat) (s : DQED)
    (h : DQED.configure self nv nc ne bounds tf td tx mi = Except.ok s) :
    s.Nvars = some nv ∧ s.Ncons = some nc ∧ s.Neq = some ne
    ∧ ∀ evalFn kernel x0,
        DQED.solve s evalFn kernel x0 = kernel s (evalFn s) x0 := by
  unfold DQED.configure configureBounds at h
  split at h
  · simp at h
  · split at h
    · simp at h
    · split at h
      · simp at h
      · split at h
        · simp at h
        · split at h
          · simp at h
          · injection h with h2
            subst h2
            exact ⟨rfl, rfl, rfl, fun _ _ _ => rfl⟩

/-- C10, witness: the fresh instance has no dimension attributes, and the
test2 configuration call produces a state carrying Nvars = 4, Ncons = 1,
Neq = 5, which solve hands to the kernel. -/
theorem claim10_witness :
    freshDQED.Nvars = none ∧ freshDQED.Ncons = none ∧ freshDQED.Neq = none
    ∧ state2.Nvars = some 4 ∧ state2.Ncons = some 1 ∧ state2.Neq = some 5
    ∧ DQED.solve state2 ev0 kern0 [0, 0, 0, 0]
        = kern0 state2 (ev0 state2) [0, 0, 0, 0] := by
  have h := claim10_dimensions_set_by_configuration freshDQED 4 1 5
    (some bounds2) (mkRat 1 100000) (mkRat 1 100000) (mkRat 1 100000) 100
    state2 rfl
  exact ⟨rfl, rfl, rfl, h.1, h.2.1, h.2.2.1, h.2.2.2 ev0 kern0 [0, 0, 0, 0]⟩
